import Mathlib

/-!
Shallow embedding of the calm-flow typing-cadence pipeline: the cadence
tracker, the audio and visual parameter mappers, and the intensity blender.
Numbers are modelled as exact rationals (reals where the source calls the
exponential function).  Each definition mirrors one function of the source.
-/

namespace CalmFlow

/-! ### Audio parameter mapper (src/mapping/audioMapping.js) -/

namespace AudioMapping

def IKI_MIN : ℚ := 80
def IKI_MAX : ℚ := 500
def GAIN_MIN : ℚ := 0.18
def GAIN_MAX : ℚ := 0.28
def CUTOFF_MIN : ℚ := 800
def CUTOFF_MAX : ℚ := 2200
def BREATH_MIN : ℚ := 0.07
def BREATH_MAX : ℚ := 0.12
def ATTACK_TIME : ℚ := 300
def RELEASE_TIME : ℚ := 1500

/-- Linear interpolation helper: `lerp(min, max, t) = min + (max - min) * t`. -/
def lerp (lo hi t : ℚ) : ℚ := lo + (hi - lo) * t

/-- Clamp value to range: `Math.min(Math.max(value, min), max)`. -/
def clamp (value lo hi : ℚ) : ℚ := min (max value lo) hi

/-- Map IKI to normalized position in `[0, 1]` (0 = fast, 1 = slow). -/
def mapIkiToNormalized (ikiMs : ℚ) : ℚ :=
  (clamp ikiMs IKI_MIN IKI_MAX - IKI_MIN) / (IKI_MAX - IKI_MIN)

/-- Result record of `mapToAudioParams`. -/
structure AudioTargets where
  gain : ℚ
  cutoff : ℚ
  breathHz : ℚ
  deriving DecidableEq

/-- Map normalized position to audio parameters (three independent lerps). -/
def mapToAudioParams (normalized : ℚ) : AudioTargets :=
  { gain := lerp GAIN_MIN GAIN_MAX normalized
    cutoff := lerp CUTOFF_MIN CUTOFF_MAX normalized
    breathHz := lerp BREATH_MIN BREATH_MAX normalized }

/-- Result of `createRampHelper`: the parameter value plus an optional
`rampTime` field (absent on a first-ever value). -/
structure RampResult where
  value : ℚ
  rampTime : Option ℚ
  deriving DecidableEq

/-- Ramp helper: first value is set immediately with no ramp field; later
values are tagged with `ATTACK_TIME` when strictly increasing over the stored
value, `RELEASE_TIME` otherwise. -/
def createRampHelper (targetValue : ℚ) (currentValue : Option ℚ) : RampResult :=
  match currentValue with
  | none => { value := targetValue, rampTime := none }
  | some cv =>
      { value := targetValue
        rampTime := some (if targetValue > cv then ATTACK_TIME else RELEASE_TIME) }

/-- Module state: last mapped gain and cutoff targets (`null` before the
first call). -/
structure MappingState where
  lastGain : Option ℚ
  lastCutoff : Option ℚ
  deriving DecidableEq

/-- State at module load: both memories `null`. -/
def initialMappingState : MappingState := { lastGain := none, lastCutoff := none }

/-- Output object of `mapIkiToAudioParams`. -/
structure AudioParams where
  gain : ℚ
  cutoffHz : ℚ
  breathHz : ℚ
  rampTime : Option ℚ
  deriving DecidableEq

/-- Body of `mapIkiToAudioParams` on a non-null input: normalize, lerp, build
the two ramps, store the new targets, and attach `rampTime` from the gain ramp
when that field is present and truthy (a JS number is truthy iff nonzero). -/
def audioStep (ikiMs : ℚ) (st : MappingState) : AudioParams × MappingState :=
  let normalized := mapIkiToNormalized ikiMs
  let t := mapToAudioParams normalized
  let gainRamp := createRampHelper t.gain st.lastGain
  let cutoffRamp := createRampHelper t.cutoff st.lastCutoff
  let params : AudioParams :=
    { gain := gainRamp.value
      cutoffHz := cutoffRamp.value
      breathHz := t.breathHz
      rampTime :=
        match gainRamp.rampTime with
        | none => none
        | some r => if r = 0 then none else some r }
  (params, { lastGain := some t.gain, lastCutoff := some t.cutoff })

/-- `mapIkiToAudioParams`: returns `null` on a null IKI (state untouched),
otherwise runs `audioStep`. -/
def mapIkiToAudioParams (ikiMs : Option ℚ) (st : MappingState) :
    Option AudioParams × MappingState :=
  match ikiMs with
  | none => (none, st)
  | some iki =>
      let r := audioStep iki st
      (some r.1, r.2)

/-- `resetMapping()`: clears both memories to `null`. -/
def resetMapping : MappingState := { lastGain := none, lastCutoff := none }

/-- Gain target computed by the pure mapping stage for a given IKI. -/
def gainTargetOf (ikiMs : ℚ) : ℚ := (mapToAudioParams (mapIkiToNormalized ikiMs)).gain

/-- Cutoff target computed by the pure mapping stage for a given IKI. -/
def cutoffTargetOf (ikiMs : ℚ) : ℚ := (mapToAudioParams (mapIkiToNormalized ikiMs)).cutoff

/-- Breath-rate target computed by the pure mapping stage for a given IKI. -/
def breathTargetOf (ikiMs : ℚ) : ℚ := (mapToAudioParams (mapIkiToNormalized ikiMs)).breathHz

end AudioMapping

end CalmFlow

namespace CalmFlow.AudioMapping

/-- The emitted gain always equals the computed gain target, in any state. -/
lemma audioStep_gain (ikiMs : ℚ) (st : MappingState) :
    (audioStep ikiMs st).1.gain = gainTargetOf ikiMs := by
  cases st with
  | mk lg lc => cases lg <;> cases lc <;> simp [audioStep, createRampHelper, gainTargetOf]

/-- The emitted cutoff always equals the computed cutoff target, in any state. -/
lemma audioStep_cutoff (ikiMs : ℚ) (st : MappingState) :
    (audioStep ikiMs st).1.cutoffHz = cutoffTargetOf ikiMs := by
  cases st with
  | mk lg lc => cases lg <;> cases lc <;> simp [audioStep, createRampHelper, cutoffTargetOf]

/-- The state after any call stores the two freshly computed targets. -/
lemma audioStep_state (ikiMs : ℚ) (st : MappingState) :
    (audioStep ikiMs st).2
      = { lastGain := some (gainTargetOf ikiMs), lastCutoff := some (cutoffTargetOf ikiMs) } := by
  simp [audioStep, gainTargetOf, cutoffTargetOf]

/-- On `[80, 500]` the clamp is the identity and normalization is linear. -/
lemma mapIkiToNormalized_of_mem (x : ℚ) (h1 : 80 ≤ x) (h2 : x ≤ 500) :
    mapIkiToNormalized x = (x - 80) / 420 := by
  unfold mapIkiToNormalized clamp IKI_MIN IKI_MAX
  rw [max_eq_left h1, min_eq_left h2]
  norm_num

/-- Gain and cutoff targets rise together: both are strictly increasing affine
images of the same normalized value. -/
lemma gainTarget_lt_iff_cutoffTarget_lt (x y : ℚ) :
    gainTargetOf x < gainTargetOf y ↔ cutoffTargetOf x < cutoffTargetOf y := by
  unfold gainTargetOf cutoffTargetOf mapToAudioParams lerp
  unfold GAIN_MIN GAIN_MAX CUTOFF_MIN CUTOFF_MAX
  constructor <;> intro h <;> nlinarith [h]

/-- With a stored previous gain, the emitted ramp hint is the attack time on a
strict increase of the gain target and the release time otherwise. -/
lemma audioStep_rampTime_some (iki g c : ℚ) :
    (audioStep iki { lastGain := some g, lastCutoff := some c }).1.rampTime
      = some (if g < gainTargetOf iki then ATTACK_TIME else RELEASE_TIME) := by
  unfold audioStep createRampHelper gainTargetOf
  by_cases h : g < (mapToAudioParams (mapIkiToNormalized iki)).gain
  · simp [h, ATTACK_TIME]
  · simp [h, RELEASE_TIME]

/-- In the fresh state no ramp hint is emitted. -/
lemma audioStep_rampTime_init (iki : ℚ) :
    (audioStep iki initialMappingState).1.rampTime = none := by
  simp [audioStep, createRampHelper, initialMappingState]

end CalmFlow.AudioMapping

/-! ### Visual parameter mapper (src/mapping/visualMapping.js) -/

namespace CalmFlow.VisualMapping

def IKI_MIN : ℝ := 80
def IKI_MAX : ℝ := 500
def SPEED_MIN : ℝ := 0.07
def SPEED_MAX : ℝ := 0.12
def DETAIL_MIN : ℝ := 0.6
def DETAIL_MAX : ℝ := 1.0
def SATURATION_MIN : ℝ := 0.6
def SATURATION_MAX : ℝ := 0.8
def ATTACK_TIME : ℝ := 300
def RELEASE_TIME : ℝ := 1500

/-- Clamp the IKI to `[IKI_MIN, IKI_MAX]` and normalize to `[0, 1]`
(non-null path of the source function). -/
noncomputable def mapIkiToNormalized (ikiMs : ℝ) : ℝ :=
  (min (max ikiMs IKI_MIN) IKI_MAX - IKI_MIN) / (IKI_MAX - IKI_MIN)

/-- Visual parameter triple; also the shape of the mapper result object,
which carries exactly these three fields. -/
structure VisualTargets where
  speed : ℝ
  detail : ℝ
  saturation : ℝ

/-- Map normalized IKI to visual parameters: three lerps, each capped above by
its maximum. -/
noncomputable def mapToVisualParams (normalized : ℝ) : VisualTargets :=
  let speed := SPEED_MIN + (SPEED_MAX - SPEED_MIN) * normalized
  let detail := DETAIL_MIN + (DETAIL_MAX - DETAIL_MIN) * normalized
  let saturation := SATURATION_MIN + (SATURATION_MAX - SATURATION_MIN) * normalized
  { speed := min speed SPEED_MAX
    detail := min detail DETAIL_MAX
    saturation := min saturation SATURATION_MAX }

/-- Visual ramp helper: the first value is set immediately; a subsequent value
is moved by `current + (target - current) * (1 - exp (-time / rampTime))`,
where `time` is the value of `Date.now()` at the call (the absolute wall
clock) and `rampTime` is the attack time on a strict increase, the release
time otherwise. -/
noncomputable def createRampHelper (timeNow targetValue : ℝ) (currentValue : Option ℝ) : ℝ :=
  match currentValue with
  | none => targetValue
  | some cv =>
      let rampTime := if targetValue > cv then ATTACK_TIME else RELEASE_TIME
      let alpha := 1 - Real.exp (-timeNow / rampTime)
      cv + (targetValue - cv) * alpha

/-- Smoothing memory: last emitted speed, detail and saturation. -/
structure VisualState where
  lastSpeed : Option ℝ
  lastDetail : Option ℝ
  lastSaturation : Option ℝ

/-- `resetVisualMapping()`: clears all three memories to `null` (also the
state at module load). -/
def resetVisualMapping : VisualState :=
  { lastSpeed := none, lastDetail := none, lastSaturation := none }

/-- Body of `mapIkiToVisualParams` on a non-null IKI with the scene available:
normalize, map, smooth each parameter with the ramp helper, and store the
smoothed outputs as the new memory. `timeNow` is the `Date.now()` value
observed during the call. -/
noncomputable def visualStep (timeNow ikiMs : ℝ) (st : VisualState) :
    VisualTargets × VisualState :=
  let normalized := mapIkiToNormalized ikiMs
  let mapped := mapToVisualParams normalized
  let smoothedSpeed := createRampHelper timeNow mapped.speed st.lastSpeed
  let smoothedDetail := createRampHelper timeNow mapped.detail st.lastDetail
  let smoothedSaturation := createRampHelper timeNow mapped.saturation st.lastSaturation
  ({ speed := smoothedSpeed, detail := smoothedDetail, saturation := smoothedSaturation },
   { lastSpeed := some smoothedSpeed, lastDetail := some smoothedDetail,
     lastSaturation := some smoothedSaturation })

/-- `mapIkiToVisualParams`: returns `null` on a null IKI (state untouched),
otherwise runs `visualStep`. -/
noncomputable def mapIkiToVisualParams (timeNow : ℝ) (ikiMs : Option ℝ) (st : VisualState) :
    Option VisualTargets × VisualState :=
  match ikiMs with
  | none => (none, st)
  | some iki =>
      let r := visualStep timeNow iki st
      (some r.1, r.2)

/-- Follows the smoothing sentence of the specification: one exponential
approach per call, `output = previous + (target - previous) * (1 - e^(-dt/tau))`,
where `dt` is the wall-clock time elapsed since the previous call and `tau` is
300 ms when the target exceeds the previous output, 1500 ms otherwise. -/
noncomputable def specSmoothStep (dtMs targetValue prev : ℝ) : ℝ :=
  let tau : ℝ := if targetValue > prev then 300 else 1500
  prev + (targetValue - prev) * (1 - Real.exp (-dtMs / tau))

end CalmFlow.VisualMapping

open CalmFlow.VisualMapping in
/-- C1 (code evaluated at the failing input): the visual ramp helper feeds the
absolute `Date.now()` value into the exponent, so a call at wall-clock time
1500 ms whose previous call was 500 ms earlier (previous output 0.07, target
0.12) does not produce the specified exponential approach over the elapsed
time of 500 ms. -/
theorem visual_smoothing_uses_absolute_clock :
    createRampHelper 1500 0.12 (some 0.07) ≠ specSmoothStep 500 0.12 0.07 := by
  have h7 : (0.07 : ℝ) < 0.12 := by norm_num
  simp only [createRampHelper, specSmoothStep, ATTACK_TIME, RELEASE_TIME,
    gt_iff_lt, if_pos h7]
  intro h
  have hE : Real.exp (-(1500 : ℝ) / 300) < Real.exp (-(500 : ℝ) / 300) :=
    Real.exp_lt_exp.mpr (by norm_num)
  nlinarith [h, hE]

open CalmFlow.AudioMapping in
/-- C8: after `reset()` on either mapper, a single call emits the computed
targets exactly: the audio mapper outputs the three computed targets with no
ramp hint, and the visual mapper outputs the three mapped targets with no
smoothing applied. -/
theorem reset_then_first_call_is_exact (iki : ℚ) (timeNow ikiV : ℝ) :
    ((audioStep iki resetMapping).1.gain = gainTargetOf iki ∧
      (audioStep iki resetMapping).1.cutoffHz = cutoffTargetOf iki ∧
      (audioStep iki resetMapping).1.breathHz = breathTargetOf iki ∧
      (audioStep iki resetMapping).1.rampTime = none) ∧
    ((CalmFlow.VisualMapping.visualStep timeNow ikiV
          CalmFlow.VisualMapping.resetVisualMapping).1.speed
        = (CalmFlow.VisualMapping.mapToVisualParams
            (CalmFlow.VisualMapping.mapIkiToNormalized ikiV)).speed ∧
      (CalmFlow.VisualMapping.visualStep timeNow ikiV
          CalmFlow.VisualMapping.resetVisualMapping).1.detail
        = (CalmFlow.VisualMapping.mapToVisualParams
            (CalmFlow.VisualMapping.mapIkiToNormalized ikiV)).detail ∧
      (CalmFlow.VisualMapping.visualStep timeNow ikiV
          CalmFlow.VisualMapping.resetVisualMapping).1.saturation
        = (CalmFlow.VisualMapping.mapToVisualParams
            (CalmFlow.VisualMapping.mapIkiToNormalized ikiV)).saturation) := by
  constructor
  · refine ⟨?_, ?_, ?_, ?_⟩ <;>
      simp [audioStep, createRampHelper, resetMapping,
        gainTargetOf, cutoffTargetOf, breathTargetOf]
  · refine ⟨?_, ?_, ?_⟩ <;>
      simp [CalmFlow.VisualMapping.visualStep, CalmFlow.VisualMapping.createRampHelper,
        CalmFlow.VisualMapping.resetVisualMapping]

open CalmFlow.AudioMapping in
/-- C3: over `[80, 500]` both the computed gain and the computed cutoff are
monotonically non-decreasing in the IKI, in any smoothing state. -/
theorem audio_mapper_monotone (a b : ℚ) (st : MappingState)
    (h80 : 80 ≤ a) (hab : a ≤ b) (h500 : b ≤ 500) :
    (audioStep a st).1.gain ≤ (audioStep b st).1.gain ∧
    (audioStep a st).1.cutoffHz ≤ (audioStep b st).1.cutoffHz := by
  rw [audioStep_gain, audioStep_gain, audioStep_cutoff, audioStep_cutoff]
  have hna := mapIkiToNormalized_of_mem a h80 (le_trans hab h500)
  have hnb := mapIkiToNormalized_of_mem b (le_trans h80 hab) h500
  have hdiv : (a - 80) / 420 ≤ (b - 80) / 420 := by
    apply div_le_div_of_nonneg_right ?_ ?_ <;> linarith
  constructor
  · unfold gainTargetOf mapToAudioParams lerp GAIN_MIN GAIN_MAX
    rw [hna, hnb]
    linarith
  · unfold cutoffTargetOf mapToAudioParams lerp CUTOFF_MIN CUTOFF_MAX
    rw [hna, hnb]
    linarith

open CalmFlow.AudioMapping in
/-- Witness for C3: concrete inputs 100 ≤ 200 inside the clamp range. -/
theorem audio_mapper_monotone_witness :
    ((80 : ℚ) ≤ 100 ∧ (100 : ℚ) ≤ 200 ∧ (200 : ℚ) ≤ 500) ∧
    ((audioStep 100 initialMappingState).1.gain
        ≤ (audioStep 200 initialMappingState).1.gain ∧
      (audioStep 100 initialMappingState).1.cutoffHz
        ≤ (audioStep 200 initialMappingState).1.cutoffHz) :=
  ⟨⟨by norm_num, by norm_num, by norm_num⟩,
   audio_mapper_monotone 100 200 initialMappingState
     (by norm_num) (by norm_num) (by norm_num)⟩

open CalmFlow.AudioMapping in
/-- C6: after a previous call, the emitted update carries ramp hint 300 ms
when the new target strictly exceeds the last target (equivalently for gain or
for cutoff, which rise together) and 1500 ms otherwise; with no previous value
the computed targets are emitted with no ramp hint. -/
theorem audio_ramp_hint_attack_release (st0 : MappingState) (ikiPrev iki : ℚ) :
    ((audioStep iki (audioStep ikiPrev st0).2).1.rampTime
        = some (if gainTargetOf iki > gainTargetOf ikiPrev then 300 else 1500)) ∧
    ((audioStep iki (audioStep ikiPrev st0).2).1.rampTime
        = some (if cutoffTargetOf iki > cutoffTargetOf ikiPrev then 300 else 1500)) ∧
    (audioStep iki initialMappingState).1.rampTime = none ∧
    (audioStep iki initialMappingState).1.gain = gainTargetOf iki ∧
    (audioStep iki initialMappingState).1.cutoffHz = cutoffTargetOf iki := by
  refine ⟨?_, ?_, audioStep_rampTime_init iki, audioStep_gain iki initialMappingState,
    audioStep_cutoff iki initialMappingState⟩
  · rw [audioStep_state, audioStep_rampTime_some]
    norm_num [ATTACK_TIME, RELEASE_TIME]
  · rw [audioStep_state, audioStep_rampTime_some]
    by_cases h : cutoffTargetOf ikiPrev < cutoffTargetOf iki
    · rw [if_pos ((gainTarget_lt_iff_cutoffTarget_lt ikiPrev iki).mpr h), if_pos h]
      norm_num [ATTACK_TIME]
    · rw [if_neg (fun hh => h ((gainTarget_lt_iff_cutoffTarget_lt ikiPrev iki).mp hh)),
        if_neg h]
      norm_num [RELEASE_TIME]

open CalmFlow.AudioMapping in
/-- C2: for every `ikiMs ≤ 80` the audio mapper outputs gain 0.18,
cutoffHz 800, breathHz 0.07, and for every `ikiMs ≥ 500` it outputs gain 0.28,
cutoffHz 2200, breathHz 0.12, in any smoothing state. -/
theorem audio_mapper_saturates_at_clamp_endpoints :
    (∀ (ikiMs : ℚ) (st : MappingState), ikiMs ≤ 80 →
      (audioStep ikiMs st).1.gain = 0.18 ∧
      (audioStep ikiMs st).1.cutoffHz = 800 ∧
      (audioStep ikiMs st).1.breathHz = 0.07) ∧
    (∀ (ikiMs : ℚ) (st : MappingState), 500 ≤ ikiMs →
      (audioStep ikiMs st).1.gain = 0.28 ∧
      (audioStep ikiMs st).1.cutoffHz = 2200 ∧
      (audioStep ikiMs st).1.breathHz = 0.12) := by
  constructor
  · intro ikiMs st h
    have hc : clamp ikiMs IKI_MIN IKI_MAX = 80 := by
      unfold clamp IKI_MIN IKI_MAX
      have h1 : max ikiMs 80 = 80 := max_eq_right h
      rw [h1]
      exact min_eq_left (by norm_num)
    have hn : mapIkiToNormalized ikiMs = 0 := by
      unfold mapIkiToNormalized
      rw [hc]; norm_num [IKI_MIN, IKI_MAX]
    cases st with
    | mk lg lc =>
      cases lg <;> cases lc <;>
        simp [audioStep, mapToAudioParams, createRampHelper, lerp, hn,
          GAIN_MIN, GAIN_MAX, CUTOFF_MIN, CUTOFF_MAX, BREATH_MIN, BREATH_MAX]
  · intro ikiMs st h
    have hc : clamp ikiMs IKI_MIN IKI_MAX = 500 := by
      unfold clamp IKI_MIN IKI_MAX
      have h1 : max ikiMs 80 = ikiMs := max_eq_left (by linarith)
      rw [h1]
      exact min_eq_right h
    have hn : mapIkiToNormalized ikiMs = 1 := by
      unfold mapIkiToNormalized
      rw [hc]; norm_num [IKI_MIN, IKI_MAX]
    cases st with
    | mk lg lc =>
      cases lg <;> cases lc <;>
        simp [audioStep, mapToAudioParams, createRampHelper, lerp, hn,
          GAIN_MIN, GAIN_MAX, CUTOFF_MIN, CUTOFF_MAX, BREATH_MIN, BREATH_MAX]

open CalmFlow.AudioMapping in
/-- Witness for C2: concrete inputs 50 (below the floor) and 600 (above the
ceiling) in the fresh state. -/
theorem audio_mapper_saturates_at_clamp_endpoints_witness :
    ((50 : ℚ) ≤ 80 ∧
      (audioStep 50 initialMappingState).1.gain = 0.18 ∧
      (audioStep 50 initialMappingState).1.cutoffHz = 800 ∧
      (audioStep 50 initialMappingState).1.breathHz = 0.07) ∧
    ((500 : ℚ) ≤ 600 ∧
      (audioStep 600 initialMappingState).1.gain = 0.28 ∧
      (audioStep 600 initialMappingState).1.cutoffHz = 2200 ∧
      (audioStep 600 initialMappingState).1.breathHz = 0.12) :=
  ⟨⟨by norm_num,
    audio_mapper_saturates_at_clamp_endpoints.1 50 initialMappingState (by norm_num)⟩,
   ⟨by norm_num,
    audio_mapper_saturates_at_clamp_endpoints.2 600 initialMappingState (by norm_num)⟩⟩

/-! ### Intensity blender (src/app.js, handleCadenceUpdate) -/

namespace CalmFlow.Blending

/-- Palette values accepted by the visual scene. -/
inductive Palette
  | day
  | night
  deriving DecidableEq

/-- Audio parameter bag blended by the orchestrator. -/
structure AudioBag where
  gain : ℝ
  cutoffHz : ℝ
  breathHz : ℝ

/-- Visual parameter bag blended by the orchestrator; the palette field is
optional because a JS object may lack it (`undefined`). -/
structure VisualBag where
  speed : ℝ
  detail : ℝ
  saturation : ℝ
  palette : Option Palette

/-- Fixed audio baseline midpoints used in the blend. -/
def baselineAudio : AudioBag := { gain := 0.23, cutoffHz := 1500, breathHz := 0.095 }

/-- Fixed visual baseline midpoints used in the blend. -/
def baselineVisual : VisualBag :=
  { speed := 0.095, detail := 0.8, saturation := 0.7, palette := some Palette.day }

/-- Blend of the mapped audio bag against the baseline:
`out = baseline + (mapped - baseline) * intensity` per numeric field. -/
def blendAudio (mapped : AudioBag) (intensity : ℝ) : AudioBag :=
  { gain := baselineAudio.gain + (mapped.gain - baselineAudio.gain) * intensity
    cutoffHz := baselineAudio.cutoffHz + (mapped.cutoffHz - baselineAudio.cutoffHz) * intensity
    breathHz := baselineAudio.breathHz + (mapped.breathHz - baselineAudio.breathHz) * intensity }

/-- Blend of the mapped visual bag against the baseline: numeric fields use
the same mix, the palette is taken from the mapped bag as-is. -/
def blendVisual (mapped : VisualBag) (intensity : ℝ) : VisualBag :=
  { speed := baselineVisual.speed + (mapped.speed - baselineVisual.speed) * intensity
    detail := baselineVisual.detail + (mapped.detail - baselineVisual.detail) * intensity
    saturation :=
      baselineVisual.saturation + (mapped.saturation - baselineVisual.saturation) * intensity
    palette := mapped.palette }

/-- Bag obtained by reading the fields the orchestrator accesses on the
visual-mapper result: the result object carries only speed, detail and
saturation, so the `palette` property read yields `undefined` (`none`). -/
def mappedVisualBagOf (m : CalmFlow.VisualMapping.VisualTargets) : VisualBag :=
  { speed := m.speed, detail := m.detail, saturation := m.saturation, palette := none }

end CalmFlow.Blending

open CalmFlow.Blending in
/-- C4: the intensity blend computes `baseline + (mapped - baseline) * i` per
numeric field with the fixed baselines (audio 0.23 / 1500 / 0.095, visual
0.095 / 0.8 / 0.7); at `i = 0` every numeric field equals the baseline, and at
`i = 1` every field equals the mapped input exactly. -/
theorem intensity_blend_formula_and_endpoints (ma : AudioBag) (mv : VisualBag) (i : ℝ) :
    ((blendAudio ma i).gain = 0.23 + (ma.gain - 0.23) * i ∧
      (blendAudio ma i).cutoffHz = 1500 + (ma.cutoffHz - 1500) * i ∧
      (blendAudio ma i).breathHz = 0.095 + (ma.breathHz - 0.095) * i ∧
      (blendVisual mv i).speed = 0.095 + (mv.speed - 0.095) * i ∧
      (blendVisual mv i).detail = 0.8 + (mv.detail - 0.8) * i ∧
      (blendVisual mv i).saturation = 0.7 + (mv.saturation - 0.7) * i) ∧
    ((blendAudio ma 0).gain = 0.23 ∧ (blendAudio ma 0).cutoffHz = 1500 ∧
      (blendAudio ma 0).breathHz = 0.095 ∧
      (blendVisual mv 0).speed = 0.095 ∧ (blendVisual mv 0).detail = 0.8 ∧
      (blendVisual mv 0).saturation = 0.7) ∧
    ((blendAudio ma 1).gain = ma.gain ∧ (blendAudio ma 1).cutoffHz = ma.cutoffHz ∧
      (blendAudio ma 1).breathHz = ma.breathHz ∧
      (blendVisual mv 1).speed = mv.speed ∧ (blendVisual mv 1).detail = mv.detail ∧
      (blendVisual mv 1).saturation = mv.saturation ∧
      (blendVisual mv 1).palette = mv.palette) := by
  refine ⟨⟨?_, ?_, ?_, ?_, ?_, ?_⟩, ⟨?_, ?_, ?_, ?_, ?_, ?_⟩, ⟨?_, ?_, ?_, ?_, ?_, ?_, ?_⟩⟩ <;>
    simp [blendAudio, blendVisual, baselineAudio, baselineVisual]

open CalmFlow.Blending in
/-- C9 counterexample: in a concrete run (first visual-mapper call with IKI
200 ms, intensity 1) the palette forwarded to the visual sink is absent
(`none`), hence not a member of the set consisting of day and night. -/
theorem blended_palette_not_day_or_night :
    (blendVisual
        (mappedVisualBagOf
          (CalmFlow.VisualMapping.visualStep 0 200
            CalmFlow.VisualMapping.resetVisualMapping).1) 1).palette
        ≠ some Palette.day ∧
    (blendVisual
        (mappedVisualBagOf
          (CalmFlow.VisualMapping.visualStep 0 200
            CalmFlow.VisualMapping.resetVisualMapping).1) 1).palette
        ≠ some Palette.night := by
  constructor <;> simp [blendVisual, mappedVisualBagOf]

open CalmFlow.Blending in
/-- C9 amended: the palette field always passes through the blend unchanged
from the mapped bag; because the visual mapper result has no palette property,
the palette forwarded to the visual sink is always absent (`none`), not a
member of the day/night palette set. -/
theorem blended_palette_passthrough_absent (mv : VisualBag) (i : ℝ)
    (timeNow ikiMs : ℝ) (st : CalmFlow.VisualMapping.VisualState) :
    (blendVisual mv i).palette = mv.palette ∧
    (blendVisual (mappedVisualBagOf (CalmFlow.VisualMapping.visualStep timeNow ikiMs st).1)
        i).palette = none := by
  constructor <;> simp [blendVisual, mappedVisualBagOf]

/-! ### Cadence tracker, plain JS variant (src/input/cadence.js) -/

namespace CalmFlow.CadenceJS

def RING_BUFFER_SIZE : ℕ := 20
def EMA_ALPHA : ℚ := 0.2
def MAX_PUBLISH_RATE_MS : ℚ := 1000 / 30

/-- Tracker state: the timestamp ring buffer (a JS array with possibly unset
slots), its write index and fill count, the EMA accumulator, the current
metrics, and the last publish time. -/
structure CadenceState where
  timestampBuffer : ℕ → Option ℚ
  bufferIndex : ℕ
  bufferCount : ℕ
  emaIkiMs : Option ℚ
  lastIkiMs : Option ℚ
  lastKeyAt : Option ℚ
  lastPublishTime : ℚ

/-- State established by `startCadence()`: empty buffer, zeroed counters,
null metrics, last publish time 0. -/
def startState : CadenceState :=
  { timestampBuffer := fun _ => none, bufferIndex := 0, bufferCount := 0,
    emaIkiMs := none, lastIkiMs := none, lastKeyAt := none, lastPublishTime := 0 }

/-- Inter-key interval: null with fewer than two buffered keys, otherwise the
difference between the current time and the timestamp two write positions
back (the buffer read is an optional slot access). -/
def calculateIKI (currentTime : ℚ) (st : CadenceState) : Option ℚ :=
  if st.bufferCount < 2 then none
  else
    match st.timestampBuffer ((st.bufferIndex + RING_BUFFER_SIZE - 2) % RING_BUFFER_SIZE) with
    | none => none
    | some prevTime => some (currentTime - prevTime)

/-- EMA update: the first interval seeds the accumulator, later intervals mix
with factor `EMA_ALPHA`. -/
def updateEMA (ikiMs : ℚ) (ema : Option ℚ) : ℚ :=
  match ema with
  | none => ikiMs
  | some e => EMA_ALPHA * ikiMs + (1 - EMA_ALPHA) * e

/-- Throttled publish: nothing is emitted when less than `MAX_PUBLISH_RATE_MS`
elapsed since the last emission; otherwise the snapshot event is dispatched
and the last publish time is updated. Returns whether a snapshot was
published. -/
def publishMetrics (now : ℚ) (st : CadenceState) : Bool × CadenceState :=
  if now - st.lastPublishTime < MAX_PUBLISH_RATE_MS then (false, st)
  else (true, { st with lastPublishTime := now })

/-- First half of `processKeystroke`, before the publish attempt: write the
timestamp into the ring buffer, advance the index modulo the buffer size, bump
the fill count (capped at the buffer size), compute the IKI and update the EMA
when available, and record the key time. -/
def updateOnKey (timestamp : ℚ) (st : CadenceState) : CadenceState :=
  let st1 : CadenceState :=
    { st with
      timestampBuffer := fun j => if j = st.bufferIndex then some timestamp
        else st.timestampBuffer j
      bufferIndex := (st.bufferIndex + 1) % RING_BUFFER_SIZE
      bufferCount := min (st.bufferCount + 1) RING_BUFFER_SIZE }
  let st2 : CadenceState :=
    match calculateIKI timestamp st1 with
    | none => st1
    | some iki =>
        { st1 with lastIkiMs := some iki, emaIkiMs := some (updateEMA iki st1.emaIkiMs) }
  { st2 with lastKeyAt := some timestamp }

/-- `processKeystroke`: the metric update above followed by the throttled
publish attempt. -/
def processKeystroke (timestamp : ℚ) (st : CadenceState) : Bool × CadenceState :=
  publishMetrics timestamp (updateOnKey timestamp st)

/-- Run of the tracker on a list of key-event timestamps after a start. -/
def runCadence (events : List ℚ) : CadenceState :=
  events.foldl (fun s t => (processKeystroke t s).2) startState

/-- The metric update never touches the last publish time. -/
lemma updateOnKey_lastPublishTime (t : ℚ) (st : CadenceState) :
    (updateOnKey t st).lastPublishTime = st.lastPublishTime := by
  unfold updateOnKey
  dsimp only
  split <;> rfl

/-- Keystroke processing publishes exactly when the throttle window has
elapsed, and a publish stamps the current time. -/
lemma processKeystroke_publish_spec (t : ℚ) (st : CadenceState) :
    ((processKeystroke t st).1 = true ↔ ¬(t - st.lastPublishTime < MAX_PUBLISH_RATE_MS)) ∧
    ((processKeystroke t st).1 = true → (processKeystroke t st).2.lastPublishTime = t) := by
  unfold processKeystroke publishMetrics
  rw [updateOnKey_lastPublishTime]
  by_cases h : t - st.lastPublishTime < MAX_PUBLISH_RATE_MS <;> simp [h]

end CalmFlow.CadenceJS

open CalmFlow.CadenceJS in
/-- C5: after a start and exactly three key events at 0, 100 and 250 ms the
tracker holds lastIkiMs = 150 and emaIkiMs = 0.2 * 150 + 0.8 * 100 = 110 (the
first interval seeds the EMA, the second is mixed with factor 0.2). -/
theorem cadence_three_events_iki_ema :
    (runCadence [0, 100, 250]).lastIkiMs = some 150 ∧
    (runCadence [0, 100, 250]).emaIkiMs = some (0.2 * 150 + 0.8 * 100) ∧
    (runCadence [0, 100, 250]).emaIkiMs = some 110 := by
  refine ⟨?_, ?_, ?_⟩ <;>
    norm_num [runCadence, processKeystroke, updateOnKey, publishMetrics,
      calculateIKI, updateEMA, startState, RING_BUFFER_SIZE, MAX_PUBLISH_RATE_MS,
      EMA_ALPHA]

open CalmFlow.CadenceJS in
/-- C7: a snapshot is published only when at least 1000/30 ms elapsed since
the last emission, and two consecutive key events less than 1000/30 ms apart
never both publish. -/
theorem cadence_publish_throttled :
    (∀ (st : CadenceState) (t : ℚ), (processKeystroke t st).1 = true →
      1000 / 30 ≤ t - st.lastPublishTime) ∧
    (∀ (st : CadenceState) (t1 t2 : ℚ), t2 - t1 < 1000 / 30 →
      ¬((processKeystroke t1 st).1 = true ∧
        (processKeystroke t2 (processKeystroke t1 st).2).1 = true)) := by
  constructor
  · intro st t h
    have := (processKeystroke_publish_spec t st).1.mp h
    unfold MAX_PUBLISH_RATE_MS at this
    linarith [not_lt.mp this]
  · rintro st t1 t2 hgap ⟨h1, h2⟩
    have hstamp := (processKeystroke_publish_spec t1 st).2 h1
    have h2cond := (processKeystroke_publish_spec t2 (processKeystroke t1 st).2).1.mp h2
    rw [hstamp] at h2cond
    unfold MAX_PUBLISH_RATE_MS at h2cond
    exact h2cond (by linarith)

open CalmFlow.CadenceJS in
/-- Witness for C7: the emit condition discharged at the concrete publishing
call (t = 100 from the start state) and the pair bound discharged at two
events 10 ms apart. -/
theorem cadence_publish_throttled_witness :
    ((processKeystroke 100 startState).1 = true ∧
      1000 / 30 ≤ (100 : ℚ) - startState.lastPublishTime) ∧
    ((10 : ℚ) - 0 < 1000 / 30 ∧
      ¬((processKeystroke 0 startState).1 = true ∧
        (processKeystroke 10 (processKeystroke 0 startState).2).1 = true)) :=
  ⟨⟨by norm_num [processKeystroke, updateOnKey, publishMetrics, calculateIKI,
      updateEMA, startState, RING_BUFFER_SIZE, MAX_PUBLISH_RATE_MS],
    cadence_publish_throttled.1 startState 100
      (by norm_num [processKeystroke, updateOnKey, publishMetrics, calculateIKI,
        updateEMA, startState, RING_BUFFER_SIZE, MAX_PUBLISH_RATE_MS])⟩,
   ⟨by norm_num, cadence_publish_throttled.2 startState 0 10 (by norm_num)⟩⟩

/-! ### Cadence tracker, TypeScript variant (src/input/cadence.ts) -/

namespace CalmFlow.CadenceTS

def RING_BUFFER_SIZE : ℕ := 20
def WPM_WINDOW_MS : ℚ := 10000
def CHARS_PER_WORD : ℚ := 5
def EMA_ALPHA : ℚ := 0.2
def MAX_PUBLISH_RATE_MS : ℚ := 1000 / 30

/-- Tracker state of the TypeScript variant; identical to the JS variant plus
the published `wpm10s` metric. -/
structure TSState where
  timestampBuffer : ℕ → Option ℚ
  bufferIndex : ℕ
  bufferCount : ℕ
  emaIkiMs : Option ℚ
  lastIkiMs : Option ℚ
  wpm10s : ℚ
  lastKeyAt : Option ℚ
  lastPublishTime : ℚ

/-- State established by `startCadence()`. -/
def startState : TSState :=
  { timestampBuffer := fun _ => none, bufferIndex := 0, bufferCount := 0,
    emaIkiMs := none, lastIkiMs := none, wpm10s := 0, lastKeyAt := none,
    lastPublishTime := 0 }

/-- Rolling 10-second WPM: count the buffered timestamps in the window, divide
by the chars-per-word convention, convert the 10 s count to a per-minute rate.
The scanned index is `(bufferIndex - bufferCount + i + RING_BUFFER_SIZE) %
RING_BUFFER_SIZE` (written here with the additions first; along every run
`bufferCount ≤ RING_BUFFER_SIZE`, so the value agrees with the JS arithmetic).
A missing slot compares as false, as a JS `undefined >= x` does. -/
def calculateWPM (now : ℚ) (st : TSState) : ℚ :=
  let cutoffTime := now - WPM_WINDOW_MS
  let keyCount := (List.range st.bufferCount).countP fun i =>
    match st.timestampBuffer
        ((st.bufferIndex + i + RING_BUFFER_SIZE - st.bufferCount) % RING_BUFFER_SIZE) with
    | some ts => decide (cutoffTime ≤ ts)
    | none => false
  ((keyCount : ℚ) / CHARS_PER_WORD) * 6

/-- Inter-key interval, as in the JS variant. -/
def calculateIKI (currentTime : ℚ) (st : TSState) : Option ℚ :=
  if st.bufferCount < 2 then none
  else
    match st.timestampBuffer ((st.bufferIndex + RING_BUFFER_SIZE - 2) % RING_BUFFER_SIZE) with
    | none => none
    | some prevTime => some (currentTime - prevTime)

/-- EMA update, as in the JS variant. -/
def updateEMA (ikiMs : ℚ) (ema : Option ℚ) : ℚ :=
  match ema with
  | none => ikiMs
  | some e => EMA_ALPHA * ikiMs + (1 - EMA_ALPHA) * e

/-- Throttled publish: outside the throttle window the publish time is
stamped and `wpm10s` is recomputed before the subscribers are notified. -/
def publishMetrics (now : ℚ) (st : TSState) : TSState :=
  if now - st.lastPublishTime < MAX_PUBLISH_RATE_MS then st
  else { st with lastPublishTime := now, wpm10s := calculateWPM now st }

/-- First half of `handleKeydown`, before the publish attempt. -/
def updateOnKey (now : ℚ) (st : TSState) : TSState :=
  let st1 : TSState :=
    { st with
      timestampBuffer := fun j => if j = st.bufferIndex then some now
        else st.timestampBuffer j
      bufferIndex := (st.bufferIndex + 1) % RING_BUFFER_SIZE
      bufferCount := min (st.bufferCount + 1) RING_BUFFER_SIZE }
  let st2 : TSState :=
    match calculateIKI now st1 with
    | none => st1
    | some iki =>
        { st1 with lastIkiMs := some iki, emaIkiMs := some (updateEMA iki st1.emaIkiMs) }
  { st2 with lastKeyAt := some now }

/-- `handleKeydown` while active: the metric update followed by the throttled
publish attempt. -/
def handleKeydown (now : ℚ) (st : TSState) : TSState :=
  publishMetrics now (updateOnKey now st)

/-- Run of the tracker on a list of key-event timestamps after a start. -/
def runTracker (events : List ℚ) : TSState :=
  events.foldl (fun s t => handleKeydown t s) startState

/-- The WPM estimate is bounded by 24 whenever the buffer fill count is within
its capacity of 20: the in-window count is at most the fill count. -/
lemma calculateWPM_le (now : ℚ) (st : TSState) (h : st.bufferCount ≤ RING_BUFFER_SIZE) :
    calculateWPM now st ≤ 24 := by
  unfold calculateWPM
  dsimp only
  have hcount : ((List.range st.bufferCount).countP fun i =>
      match st.timestampBuffer
          ((st.bufferIndex + i + RING_BUFFER_SIZE - st.bufferCount) % RING_BUFFER_SIZE) with
      | some ts => decide (now - WPM_WINDOW_MS ≤ ts)
      | none => false) ≤ st.bufferCount := by
    simpa using List.countP_le_length (l := List.range st.bufferCount) _
  have h20 : ((List.range st.bufferCount).countP fun i =>
      match st.timestampBuffer
          ((st.bufferIndex + i + RING_BUFFER_SIZE - st.bufferCount) % RING_BUFFER_SIZE) with
      | some ts => decide (now - WPM_WINDOW_MS ≤ ts)
      | none => false) ≤ 20 := le_trans hcount (le_trans h (by norm_num [RING_BUFFER_SIZE]))
  have hq : (((List.range st.bufferCount).countP fun i =>
      match st.timestampBuffer
          ((st.bufferIndex + i + RING_BUFFER_SIZE - st.bufferCount) % RING_BUFFER_SIZE) with
      | some ts => decide (now - WPM_WINDOW_MS ≤ ts)
      | none => false : ℕ) : ℚ) ≤ 20 := by exact_mod_cast h20
  unfold CHARS_PER_WORD
  linarith

/-- The metric update caps the fill count at the buffer capacity. -/
lemma updateOnKey_bufferCount (t : ℚ) (st : TSState) :
    (updateOnKey t st).bufferCount = min (st.bufferCount + 1) RING_BUFFER_SIZE := by
  unfold updateOnKey
  dsimp only
  split <;> rfl

/-- The metric update never touches the WPM metric. -/
lemma updateOnKey_wpm (t : ℚ) (st : TSState) :
    (updateOnKey t st).wpm10s = st.wpm10s := by
  unfold updateOnKey
  dsimp only
  split <;> rfl

/-- The publish attempt never touches the fill count. -/
lemma publishMetrics_bufferCount (t : ℚ) (st : TSState) :
    (publishMetrics t st).bufferCount = st.bufferCount := by
  unfold publishMetrics
  split <;> rfl

/-- The publish attempt keeps the WPM metric bounded. -/
lemma publishMetrics_wpm_le (t : ℚ) (st : TSState)
    (hc : st.bufferCount ≤ RING_BUFFER_SIZE) (hw : st.wpm10s ≤ 24) :
    (publishMetrics t st).wpm10s ≤ 24 := by
  unfold publishMetrics
  split
  · exact hw
  · exact calculateWPM_le t st hc

/-- Invariant of every run: the fill count stays within the buffer capacity
and the WPM metric stays at most 24. -/
lemma runTracker_invariant (events : List ℚ) :
    ∀ st : TSState, st.bufferCount ≤ RING_BUFFER_SIZE → st.wpm10s ≤ 24 →
      (events.foldl (fun s t => handleKeydown t s) st).bufferCount ≤ RING_BUFFER_SIZE ∧
      (events.foldl (fun s t => handleKeydown t s) st).wpm10s ≤ 24 := by
  induction events with
  | nil => intro st h1 h2; exact ⟨h1, h2⟩
  | cons t ts ih =>
      intro st h1 h2
      simp only [List.foldl_cons]
      apply ih
      · rw [handleKeydown, publishMetrics_bufferCount, updateOnKey_bufferCount]
        exact min_le_right _ _
      · rw [handleKeydown]
        apply publishMetrics_wpm_le
        · rw [updateOnKey_bufferCount]; exact min_le_right _ _
        · rw [updateOnKey_wpm]; exact h2

end CalmFlow.CadenceTS

open CalmFlow.CadenceTS in
/-- C10: in every state reachable from a start by key events, the published
`wpm10s` never exceeds (20 / 5) * 6 = 24, because the WPM count ranges over a
ring buffer that never holds more than 20 entries. -/
theorem wpm10s_never_exceeds_24 (events : List ℚ) :
    (runTracker events).wpm10s ≤ 24 ∧
    (runTracker events).bufferCount ≤ RING_BUFFER_SIZE := by
  have h := runTracker_invariant events startState (by norm_num [startState])
    (by norm_num [startState])
  exact ⟨h.2, h.1⟩
